import Mathlib

/-!
Verification of the `archviz_ai` repository's core logic, shallowly embedded
in Lean 4.

Embedded components (each definition's doc comment names its Python source):
  * the JSON response-normalization walk `_extract_images_b64`
    (`src/archviz_app/services/gemini_client.py`),
  * the `generate_image` SDK/REST/Imagen dispatch (same file),
  * the REST transport's HTTP status handling (same file),
  * the render orchestrator `render_all`, `_safe`, `_write_images`,
    `_write_debug` (`src/archviz_app/services/render_service.py`),
  * the path classifier `kind_from_path` (`src/archviz_app/utils/file_utils.py`).

Python values appearing in the walk are modelled by a `Json` inductive;
Python dictionaries are association lists in insertion order (Python dicts
preserve insertion order and have unique keys, so first-match lookup is
faithful).  Python truthiness is modelled by `Json.truthy`.  Machine-level
concerns (actual network and filesystem I/O) are modelled by oracle
parameters and by an explicit write log.
-/

namespace Archviz

/-- A parsed JSON / Python value as seen by `_extract_images_b64`.
Numbers are modelled as integers (their only role in the walk is
truthiness and the `isinstance` checks, which an `Int` models faithfully
for whole numbers; no claim depends on fractional values). -/
inductive Json where
  | null : Json
  | bool (b : Bool) : Json
  | num (n : Int) : Json
  | str (s : String) : Json
  | arr (xs : List Json) : Json
  | obj (kvs : List (String × Json)) : Json

namespace Json

/-- Python truthiness of a JSON value: `None`, `False`, `0`, `""`, `[]`,
`{}` are falsy, everything else truthy. -/
def truthy : Json → Bool
  | .null => false
  | .bool b => b
  | .num n => n != 0
  | .str s => !s.data.isEmpty
  | .arr xs => !xs.isEmpty
  | .obj kvs => !kvs.isEmpty

/-- Python's `d.get(k)`: first binding of `k` in insertion order, `None`
when absent. -/
def get (kvs : List (String × Json)) (k : String) : Json :=
  (List.lookup k kvs).getD .null

/-- Python's `a or b`: `a` when truthy, else `b`. -/
def pyOr (a b : Json) : Json :=
  if a.truthy then a else b

/-- Python's `s.startswith(pre)`: prefix test on the character sequences. -/
def pyStartsWith (s pre : String) : Bool :=
  pre.data.isPrefixOf s.data

/-- The per-object-node check of `_extract_images_b64`
(gemini_client.py lines 209-214): resolve the inline-data value with
`node.get("inline_data") or node.get("inlineData")`, require it to be a
dict, resolve the mime type with
`inline.get("mime_type") or inline.get("mimeType") or ""`, and accept when
the mime type is a string starting with `image/` and `inline.get("data")`
is a non-empty string. -/
def inlineCheck (kvs : List (String × Json)) : List String :=
  match pyOr (get kvs "inline_data") (get kvs "inlineData") with
  | .obj ikvs =>
    match pyOr (get ikvs "mime_type") (pyOr (get ikvs "mimeType") (.str "")) with
    | .str m =>
      match get ikvs "data" with
      | .str b => if pyStartsWith m "image/" && !b.data.isEmpty then [b] else []
      | _ => []
    | _ => []
  | _ => []

mutual

/-- `_extract_images_b64` (gemini_client.py lines 204-223): depth-first
walk appending, at each dict node, the node's own inline-data payload (if
any) before recursing into the dict's values in insertion order; lists are
walked elementwise in order; other values contribute nothing. -/
def extract_images_b64 : Json → List String
  | .obj kvs => inlineCheck kvs ++ extractKvs kvs
  | .arr xs => extractArr xs
  | .null => []
  | .bool _ => []
  | .num _ => []
  | .str _ => []

/-- The walk's `for v in node.values(): walk(v)` loop. -/
def extractKvs : List (String × Json) → List String
  | [] => []
  | (_, v) :: rest => extract_images_b64 v ++ extractKvs rest

/-- The walk's `for it in node: walk(it)` loop. -/
def extractArr : List Json → List String
  | [] => []
  | x :: rest => extract_images_b64 x ++ extractArr rest

end

mutual

/-- All nodes of a JSON value in the depth-first preorder the walk uses:
the node itself, then (for dicts) the values in insertion order, then (for
lists) the elements in order. -/
def dfsNodes : Json → List Json
  | .obj kvs => .obj kvs :: dfsNodesKvs kvs
  | .arr xs => .arr xs :: dfsNodesArr xs
  | .null => [.null]
  | .bool b => [.bool b]
  | .num n => [.num n]
  | .str s => [.str s]

/-- Preorder nodes of a dict's values. -/
def dfsNodesKvs : List (String × Json) → List Json
  | [] => []
  | (_, v) :: rest => dfsNodes v ++ dfsNodesKvs rest

/-- Preorder nodes of a list's elements. -/
def dfsNodesArr : List Json → List Json
  | [] => []
  | x :: rest => dfsNodes x ++ dfsNodesArr rest

end

/-- The payload (if any) a single node contributes: for a dict node, the
inline-data lookup prefers the snake_case key `inline_data` and consults
`inlineData` only when `inline_data` is absent or falsy; likewise
`mime_type` is preferred over `mimeType`; the payload must be a dict whose
resolved mime type is a string starting with `image/` and whose `data`
field is a non-empty string. Non-dict nodes contribute nothing. -/
def nodePayload : Json → Option String
  | .obj kvs =>
    match pyOr (get kvs "inline_data") (get kvs "inlineData") with
    | .obj ikvs =>
      match pyOr (get ikvs "mime_type") (pyOr (get ikvs "mimeType") (.str "")) with
      | .str m =>
        match get ikvs "data" with
        | .str b => if pyStartsWith m "image/" && !b.data.isEmpty then some b else none
        | _ => none
      | _ => none
    | _ => none
  | _ => none

end Json

/-! ### Gemini client (`src/archviz_app/services/gemini_client.py`)

The client's transports perform network I/O, so they are modelled as
follows: the two `requests` calls are represented by explicit request
records (carrying the keyword arguments the source passes, notably
`timeout`) handed to an HTTP oracle, while the two SDK paths
`_generate_image_sdk` / `_generate_image_imagen_sdk` — whose outcomes
depend on the installed `google-genai` library and the remote service —
are oracle parameters returning either a response or a raised exception.
`generate_image`'s own dispatch logic (lines 44-66) is translated
directly; it also records the list of transport attempts it makes. -/

/-- An inline file attachment `{"mime_type": ..., "data_b64": ...}` as
passed to `generate_image`. -/
structure InlineFile where
  mime_type : String
  data_b64 : String
deriving DecidableEq

/-- The structured result of the client: list of base64 image payloads
plus the raw response body (`GeminiResponse`, lines 10-13). -/
structure GeminiResponse where
  images_b64 : List String
  raw : Json

/-- Python exceptions relevant to the client's control flow:
`ModuleNotFoundError` (the SDK import failing), the `RuntimeError` raised
on a 404, the `requests.HTTPError` raised by `raise_for_status`, and any
other exception. -/
inductive PyErr where
  | moduleNotFound
  | runtimeError (msg : String)
  | httpError (status : Nat)
  | otherError (msg : String)
deriving DecidableEq

/-- The default generation endpoint (`__init__`, line 29); `\x7bmodel\x7d`
is the literal `{model}` placeholder. -/
def defaultEndpoint : String :=
  "https://generativelanguage.googleapis.com/v1beta/models/\x7bmodel\x7d:generateContent"

/-- The default network timeout (`__init__`, line 27: `timeout_s: int = 120`). -/
def default_timeout_s : Nat := 120

/-- The default fallback model (`generate_image`, line 50). -/
def default_fallback_imagen_model : String := "imagen-4.0-generate-001"

/-- The client's stored state after `__init__` (lines 27-30). -/
structure GeminiClient where
  api_key : String
  endpoint : String
  timeout_s : Nat

/-- `GeminiClient.__init__` (lines 27-30): `self.endpoint = endpoint or
<default>` (Python `or`: an absent or empty endpoint falls back to the
default). -/
def GeminiClient.init (api_key : String) (endpoint : Option String) (timeout_s : Nat) :
    GeminiClient :=
  { api_key := api_key
    endpoint := match endpoint with
      | some e => if e.data.isEmpty then defaultEndpoint else e
      | none => defaultEndpoint
    timeout_s := timeout_s }

/-- Keyword arguments of a `requests.get` call. -/
structure HttpGet where
  url : String
  params : List (String × String)
  timeout : Nat
deriving DecidableEq

/-- Keyword arguments of a `requests.post` call. -/
structure HttpPost where
  url : String
  params : List (String × String)
  payload : Json
  timeout : Nat

/-- An HTTP response: status code and parsed JSON body. -/
structure HttpResp where
  status : Nat
  body : Json

/-- The request issued by `list_models_rest` (lines 35-39):
`requests.get(url, params={"key": ...}, timeout=self.timeout_s)`. -/
def list_models_request (c : GeminiClient) : HttpGet :=
  { url := "https://generativelanguage.googleapis.com/v1beta/models"
    params := [("key", c.api_key)]
    timeout := c.timeout_s }

/-- `self.endpoint.format(model=model)` (line 175). -/
def formatEndpoint (endpoint model : String) : String :=
  endpoint.replace "\x7bmodel\x7d" model

/-- The request issued by `_generate_image_rest` (lines 175-185): the
payload is `{"contents": [{"parts": [{"text": prompt}, {"inline_data":
{"mime_type": ..., "data": ...}}, ...]}]}` and the call passes
`timeout=self.timeout_s`. -/
def rest_inline_part (f : InlineFile) : Json :=
  .obj [("inline_data", .obj [("mime_type", .str f.mime_type), ("data", .str f.data_b64)])]

def rest_post_request (c : GeminiClient) (model prompt : String)
    (inline_files : List InlineFile) : HttpPost :=
  let parts : List Json := Json.obj [("text", .str prompt)] :: inline_files.map rest_inline_part
  { url := formatEndpoint c.endpoint model
    params := [("key", c.api_key)]
    payload := .obj [("contents", .arr [.obj [("parts", .arr parts)]])]
    timeout := c.timeout_s }

/-- The arguments of the `client.models.generate_content` /
`client.models.generate_images` SDK invocations: the model id (prefixed
with `models/` when not already, lines 113 and 156) and the timeout
keyword the call passes.  Neither SDK call site passes a timeout, and
`genai.Client(api_key=...)` is constructed without HTTP options (lines
82, 114-120, 155-159), which the `timeout` field records as `none`. -/
structure SdkCall where
  model : String
  timeout : Option Nat
deriving DecidableEq

/-- The `generate_content` call of `_generate_image_sdk` (lines 113-120):
no timeout argument accompanies it. -/
def sdk_generate_content_call (model : String) : SdkCall :=
  { model := if Json.pyStartsWith model "models/" then model else "models/" ++ model
    timeout := none }

/-- The `generate_images` call of `_generate_image_imagen_sdk`
(lines 156-159): no timeout argument accompanies it. -/
def imagen_generate_images_call (model : String) : SdkCall :=
  { model := if Json.pyStartsWith model "models/" then model else "models/" ++ model
    timeout := none }

/-- The 404 message of `_generate_image_rest` (lines 187-192);
`\x27` is the apostrophe character. -/
def msg404 : String :=
  "Gemini returned 404 (model not found or endpoint not supported). " ++
  "Fix by choosing a model name that exists for your API key. " ++
  "Try the app button \x27List available models\x27 or call: " ++
  "https://generativelanguage.googleapis.com/v1beta/models?key=YOUR_KEY"

/-- The remediation hint the spec requires the 404 error message to
contain: the model id is invalid for this credential and a listed model
should be chosen instead. -/
def modelRemediationHint : String :=
  "Fix by choosing a model name that exists for your API key."

/-- `_generate_image_rest` (lines 168-197), over an HTTP oracle `post`:
build the REST payload, post it, raise the dedicated `RuntimeError` on a
404 status, raise the generic `requests.HTTPError` on any other 4xx/5xx
status (`raise_for_status`), and otherwise extract images from the body. -/
def generate_image_rest (post : HttpPost → HttpResp) (c : GeminiClient)
    (model prompt : String) (inline_files : List InlineFile) :
    Except PyErr GeminiResponse :=
  let r := post (rest_post_request c model prompt inline_files)
  if r.status == 404 then .error (.runtimeError msg404)
  else if 400 ≤ r.status && r.status < 600 then .error (.httpError r.status)
  else .ok { images_b64 := Json.extract_images_b64 r.body, raw := r.body }

/-- Python truthiness of the `fallback_imagen_model` argument
(`str | None`): `None` and `""` are falsy. -/
def optStrTruthy : Option String → Bool
  | none => false
  | some s => !s.data.isEmpty

/-- One transport attempt made by `generate_image`. -/
inductive Attempt where
  | sdk (model prompt : String) (files : List InlineFile)
  | imagen (model prompt : String)
  | rest (model prompt : String) (files : List InlineFile)
deriving DecidableEq

/-- `generate_image` (lines 44-66), over oracles for the two SDK paths and
the HTTP layer.  `sdkO` is the outcome of `_generate_image_sdk` (which
internally may itself fall back to REST when only the `types` API is
missing; its result, whatever path produced it, is this oracle's value);
`imagenO` is the outcome of `_generate_image_imagen_sdk`.  The
`try`/`except ModuleNotFoundError` block encloses both the primary call
and the Imagen fallback call, so a `ModuleNotFoundError` raised by either
one routes to `_generate_image_rest`; every other exception propagates.
Alongside the result, the list of transport attempts is returned in
order. -/
def generate_image (sdkO : String → String → List InlineFile → Except PyErr GeminiResponse)
    (imagenO : String → String → Except PyErr GeminiResponse)
    (post : HttpPost → HttpResp) (c : GeminiClient)
    (model prompt : String) (inline_files : List InlineFile)
    (fallback_imagen_model : Option String) :
    Except PyErr GeminiResponse × List Attempt :=
  match sdkO model prompt inline_files with
  | .error .moduleNotFound =>
    (generate_image_rest post c model prompt inline_files,
     [.sdk model prompt inline_files, .rest model prompt inline_files])
  | .error e => (.error e, [.sdk model prompt inline_files])
  | .ok resp =>
    if !resp.images_b64.isEmpty || !optStrTruthy fallback_imagen_model then
      (.ok resp, [.sdk model prompt inline_files])
    else
      match fallback_imagen_model with
      | none =>
        -- unreachable: a `none` fallback is falsy, so the branch above returned
        (.ok resp, [.sdk model prompt inline_files])
      | some fm =>
        match imagenO fm prompt with
        | .error .moduleNotFound =>
          (generate_image_rest post c model prompt inline_files,
           [.sdk model prompt inline_files, .imagen fm prompt,
            .rest model prompt inline_files])
        | r => (r, [.sdk model prompt inline_files, .imagen fm prompt])

/-! ### Job model (`src/archviz_app/models/render_job.py`)

File paths inside the job are plain strings; output paths are lists of
path components (each `/`-joined segment), which models `pathlib`'s
`dir / name` composition. -/

structure FileInput where
  path : String
  kind : String
deriving DecidableEq

structure CameraAngle where
  name : String
  description : String
deriving DecidableEq

structure FinishNotes where
  notes : String
deriving DecidableEq

structure ExteriorInputs where
  plan_files : List FileInput
  finishes : FinishNotes
  camera_angles : List CameraAngle
deriving DecidableEq

structure RoomInputs where
  room_name : String
  plan_or_reference_files : List FileInput
  finishes : FinishNotes
  camera_angles : List CameraAngle
deriving DecidableEq

structure InteriorInputs where
  rooms : List RoomInputs
deriving DecidableEq

structure RenderJob where
  project_name : String
  style_consistency_notes : String
  exterior : ExteriorInputs
  interior : InteriorInputs
  model_name : String
deriving DecidableEq

/-! ### Prompt builder (`src/archviz_app/core/prompt_builder.py`) -/

/-- `build_prompt_for_angle`: the fixed template with the job fields
substituted; the surrounding `.strip()` removes exactly the template's
leading and trailing newline, since the template begins and ends with
constant non-whitespace text. -/
def build_prompt_for_angle (job : RenderJob) (scope scope_name angle_name angle_desc : String) :
    String :=
  "You are an architectural visualization rendering assistant.\n\n" ++
  "Goal: Generate a photorealistic render that is CONSISTENT across views.\n\n" ++
  "PROJECT: " ++ job.project_name ++ "\n" ++
  "STYLE / CONSISTENCY NOTES:\n" ++ job.style_consistency_notes ++ "\n\n" ++
  "SCOPE: " ++ scope ++ "\n" ++
  "SCOPE_NAME: " ++ scope_name ++ "\n" ++
  "CAMERA ANGLE NAME: " ++ angle_name ++ "\n" ++
  "CAMERA ANGLE DETAILS: " ++ angle_desc ++ "\n\n" ++
  "Instructions:\n" ++
  "- Maintain consistent materials, colors, and style across all generated images.\n" ++
  "- Use the provided plan and material notes as ground truth.\n" ++
  "- Do not hallucinate additional rooms/materials not described.\n" ++
  "- Produce a high quality, realistic render.\n\n" ++
  "Return only the final image."

/-- The prompt `render_all` sends for an exterior angle (lines 38-47):
the angle prompt plus the exterior finish notes. -/
def exteriorPrompt (job : RenderJob) (a : CameraAngle) : String :=
  build_prompt_for_angle job "exterior" "exterior" a.name a.description ++
    "\n\nEXTERIOR FINISH NOTES:\n" ++ job.exterior.finishes.notes

/-- The prompt `render_all` sends for a room angle (lines 58-67):
the angle prompt plus the room finish notes. -/
def roomPrompt (job : RenderJob) (room : RoomInputs) (a : CameraAngle) : String :=
  build_prompt_for_angle job "room" room.room_name a.name a.description ++
    "\n\nROOM FINISH NOTES:\n" ++ room.finishes.notes

/-! ### Render orchestrator (`src/archviz_app/services/render_service.py`)

Filesystem effects are modelled as an explicit log of write actions; the
Gemini client is an oracle `g` mapping (model, prompt, inline files) to a
`GeminiResponse` (the bound method `self.gemini.generate_image`); reading
an input file's MIME type and bytes (`guess_mime` / `to_b64` in
`file_utils.py`, which consult the filesystem) are oracles `guessM` /
`toB`.  `mkdir` calls are not modelled: they create directories only. -/

/-- One filesystem write: `p.write_bytes(base64.b64decode(b64))` for an
image, `(out_dir / filename).write_text(json.dumps(raw, ...))` for a
debug dump (the payload is kept in its pre-encoding form; both encodings
are injective and no claim depends on them). -/
inductive FsWrite where
  | imageFile (path : List String) (b64 : String)
  | debugFile (path : List String) (raw : Json)

/-- Python's `ch.isalnum()`, modelled for the ASCII range (every string a
claim mentions is ASCII). -/
def pyIsAlnum (c : Char) : Bool := c.isAlphanum

/-- The characters `_safe` keeps: `ch.isalnum() or ch in {"-", "_"}`. -/
def keepChar (c : Char) : Bool := pyIsAlnum c || c == '-' || c == '_'

/-- The per-character replacement of `_safe`. -/
def replaceChar (c : Char) : Char := if keepChar c then c else '_'

/-- Python's `.strip("_")`: drop leading and trailing underscores. -/
def stripUnderscores (l : List Char) : List Char :=
  ((l.dropWhile (· == '_')).reverse.dropWhile (· == '_')).reverse

/-- `_safe` (render_service.py lines 78-79):
`"".join(ch if ch.isalnum() or ch in {"-", "_"} else "_" for ch in s).strip("_") or "room"`. -/
def _safe (s : String) : String :=
  let t := stripUnderscores (s.data.map replaceChar)
  if t.isEmpty then "room" else String.mk t

/-- `_write_debug` (lines 82-93): one text write of the raw response at
`out_dir / filename`. -/
def _write_debug (raw : Json) (out_dir : List String) (filename : String) : FsWrite :=
  .debugFile (out_dir ++ [filename]) raw

/-- `_write_images` (lines 96-109): write each payload to
`out_dir / f"{_safe(stem)}_{i}.png"` with `i` enumerating from 1, and
return the written paths in order. -/
def _write_images (images_b64 : List String) (out_dir : List String) (stem : String) :
    List (List String) × List FsWrite :=
  let entries := images_b64.enum.map (fun e =>
    (out_dir ++ [_safe stem ++ "_" ++ toString (e.1 + 1) ++ ".png"], e.2))
  (entries.map Prod.fst, entries.map (fun pb => FsWrite.imageFile pb.1 pb.2))

/-- `_inline_files` (lines 19-23): each path becomes
`{"mime_type": guess_mime(p), "data_b64": to_b64(p)}`. -/
def _inline_files (guessM toB : String → String) (paths : List String) : List InlineFile :=
  paths.map (fun p => { mime_type := guessM p, data_b64 := toB p })

/-- The per-angle body shared by both loops of `render_all` (lines 37-52
and 57-73): call the client; if no images came back write the debug dump
named after the raw angle name; write the images; accumulate. -/
def renderAngles (g : String → String → List InlineFile → GeminiResponse)
    (model : String) (files : List InlineFile) (scope_dir : List String)
    (promptOf : CameraAngle → String) : List CameraAngle →
    List (List String) × List FsWrite
  | [] => ([], [])
  | angle :: rest =>
    let resp := g model (promptOf angle) files
    let dbg : List FsWrite :=
      if resp.images_b64.isEmpty then
        [_write_debug resp.raw scope_dir (angle.name ++ "_debug.json")]
      else []
    let pw := _write_images resp.images_b64 scope_dir angle.name
    let rec' := renderAngles g model files scope_dir promptOf rest
    (pw.1 ++ rec'.1, dbg ++ pw.2 ++ rec'.2)

/-- The room loop of `render_all` (lines 55-73): each room renders its
angles into `output_dir / "interior" / _safe(room_name)` using the room's
reference files and finish notes. -/
def renderRooms (g : String → String → List InlineFile → GeminiResponse)
    (guessM toB : String → String) (output_dir : List String) (job : RenderJob) :
    List RoomInputs → List (List String) × List FsWrite
  | [] => ([], [])
  | room :: rest =>
    let roomFiles := _inline_files guessM toB (room.plan_or_reference_files.map FileInput.path)
    let pw := renderAngles g job.model_name roomFiles
      (output_dir ++ ["interior", _safe room.room_name])
      (roomPrompt job room) room.camera_angles
    let rec' := renderRooms g guessM toB output_dir job rest
    (pw.1 ++ rec'.1, pw.2 ++ rec'.2)

/-- The orchestrator's returned value (`RenderOutput`, lines 13-16). -/
structure RenderOutput where
  output_dir : List String
  written_files : List (List String)
deriving DecidableEq

/-- `render_all` (lines 31-75): exterior angles first (into
`output_dir / "exterior"`, with the exterior plan files and finish
notes), then each room in declaration order; returns the output directory
and the accumulated written-image paths, alongside the full write log. -/
def render_all (g : String → String → List InlineFile → GeminiResponse)
    (guessM toB : String → String) (output_dir : List String) (job : RenderJob) :
    RenderOutput × List FsWrite :=
  let extFiles := _inline_files guessM toB (job.exterior.plan_files.map FileInput.path)
  let ext := renderAngles g job.model_name extFiles (output_dir ++ ["exterior"])
    (exteriorPrompt job) job.exterior.camera_angles
  let rooms := renderRooms g guessM toB output_dir job job.interior.rooms
  ({ output_dir := output_dir, written_files := ext.1 ++ rooms.1 },
   ext.2 ++ rooms.2)

/-- The image paths of a write log, in order. -/
def imageWritePaths (ws : List FsWrite) : List (List String) :=
  ws.filterMap (fun w => match w with | .imageFile p _ => some p | .debugFile _ _ => none)

/-- The debug-dump paths of a write log, in order. -/
def debugWritePaths (ws : List FsWrite) : List (List String) :=
  ws.filterMap (fun w => match w with | .debugFile p _ => some p | .imageFile _ _ => none)

/-! ### Path classifier (`src/archviz_app/utils/file_utils.py`) -/

/-- Python's `str.split("/")`. -/
def splitSlash : List Char → List (List Char)
  | [] => [[]]
  | c :: cs =>
    let r := splitSlash cs
    if c == '/' then [] :: r
    else match r with
      | h :: t => (c :: h) :: t
      | [] => [[c]]

/-- `pathlib.PurePath.name`: the final path component, with empty and
`"."` components dropped (the constructor normalizes them away). -/
def pyPathName (p : String) : String :=
  let comps := (splitSlash p.data).filter (fun c => !c.isEmpty && c ≠ ['.'])
  String.mk (comps.getLast?.getD [])

/-- `pathlib.PurePath.suffix` of a component: the part from the last dot,
empty unless that dot is at an index `i` with `0 < i < len - 1`. -/
def pySuffix (name : String) : String :=
  let r := name.data.reverse
  let pre := r.takeWhile (· != '.')
  if 0 < pre.length && pre.length + 1 < r.length then String.mk ('.' :: pre.reverse) else ""

/-- Python's `str.lower()`, modelled for the ASCII range. -/
def pyLower (s : String) : String := String.mk (s.data.map Char.toLower)

/-- `kind_from_path` (file_utils.py lines 18-24): `.pdf` (after
lowercasing) is `pdf`; `.png/.jpg/.jpeg/.webp` are `image`; anything else
is `other`. -/
def kind_from_path (p : String) : String :=
  let suffix := pyLower (pySuffix (pyPathName p))
  if suffix == ".pdf" then "pdf"
  else if suffix == ".png" || suffix == ".jpg" || suffix == ".jpeg" || suffix == ".webp" then
    "image"
  else "other"

/-! ### Specification-side definitions

These re-state, in the spec's own vocabulary and independently of the
translated code, the shapes the claims quantify over; the theorems below
compare them with the translated functions. -/

/-- The spec's inline-data payload shape: an object whose mime type
(`mime_type` or `mimeType`) is a string starting with `image/` and whose
`data` field is a non-empty string; returns that data. -/
def specInlinePayload : Json → Option String
  | .obj ikvs =>
    let mimeOk :=
      (match Json.get ikvs "mime_type" with
        | .str m => Json.pyStartsWith m "image/"
        | _ => false) ||
      (match Json.get ikvs "mimeType" with
        | .str m => Json.pyStartsWith m "image/"
        | _ => false)
    match Json.get ikvs "data" with
    | .str b => if mimeOk && !b.data.isEmpty then some b else none
    | _ => none
  | _ => none

/-- Per-character replacement as the spec words it: every character that
is not alphanumeric, `-`, or `_` becomes `_`. -/
def replaceUnsafe : List Char → List Char
  | [] => []
  | c :: cs => (if keepChar c then c else '_') :: replaceUnsafe cs

/-- Strip leading underscores, as the spec words it. -/
def dropLeadingUnderscores : List Char → List Char
  | [] => []
  | c :: cs => if c = '_' then dropLeadingUnderscores cs else c :: cs

/-- The sanitizer as the spec describes it: replace unsafe characters,
strip leading then trailing underscores, default an empty result to the
fixed placeholder `room`. -/
def sanitizeSpec (s : String) : String :=
  let replaced := replaceUnsafe s.data
  let stripped := (dropLeadingUnderscores (dropLeadingUnderscores replaced).reverse).reverse
  if stripped = [] then "room" else String.mk stripped

/-- The image files the spec says one angle produces:
`<scope>/<sanitized_angle_name>_<index>.png`, 1-indexed per angle, one per
returned payload, in order. -/
def specAngleImagePaths (scope_dir : List String) (angleName : String) (n : Nat) :
    List (List String) :=
  (List.range n).map (fun i => scope_dir ++ [_safe angleName ++ "_" ++ toString (i + 1) ++ ".png"])

/-- The image files the spec says one scope's angle list produces, in
declaration order. -/
def specScopeImages (g : String → String → List InlineFile → GeminiResponse)
    (model : String) (files : List InlineFile) (scope_dir : List String)
    (promptOf : CameraAngle → String) (angles : List CameraAngle) : List (List String) :=
  (angles.map (fun a =>
    specAngleImagePaths scope_dir a.name (g model (promptOf a) files).images_b64.length)).flatten

/-- The debug dumps one scope's angle list produces: one per angle whose
response carried no image payloads, named after the raw angle name
(`<angle_name>_debug.json`), in declaration order. -/
def specScopeDebugs (g : String → String → List InlineFile → GeminiResponse)
    (model : String) (files : List InlineFile) (scope_dir : List String)
    (promptOf : CameraAngle → String) (angles : List CameraAngle) : List (List String) :=
  (angles.map (fun a =>
    if (g model (promptOf a) files).images_b64.isEmpty then
      [scope_dir ++ [a.name ++ "_debug.json"]]
    else [])).flatten

/-- All image files a job produces, as the spec orders them: exterior
angles in declaration order, then each room's angles in declaration
order. -/
def specImageFiles (g : String → String → List InlineFile → GeminiResponse)
    (guessM toB : String → String) (output_dir : List String) (job : RenderJob) :
    List (List String) :=
  specScopeImages g job.model_name
    (_inline_files guessM toB (job.exterior.plan_files.map FileInput.path))
    (output_dir ++ ["exterior"]) (exteriorPrompt job) job.exterior.camera_angles ++
  (job.interior.rooms.map (fun room =>
    specScopeImages g job.model_name
      (_inline_files guessM toB (room.plan_or_reference_files.map FileInput.path))
      (output_dir ++ ["interior", _safe room.room_name]) (roomPrompt job room)
      room.camera_angles)).flatten

/-- All debug dumps a job produces, in the same order. -/
def specDebugFiles (g : String → String → List InlineFile → GeminiResponse)
    (guessM toB : String → String) (output_dir : List String) (job : RenderJob) :
    List (List String) :=
  specScopeDebugs g job.model_name
    (_inline_files guessM toB (job.exterior.plan_files.map FileInput.path))
    (output_dir ++ ["exterior"]) (exteriorPrompt job) job.exterior.camera_angles ++
  (job.interior.rooms.map (fun room =>
    specScopeDebugs g job.model_name
      (_inline_files guessM toB (room.plan_or_reference_files.map FileInput.path))
      (output_dir ++ ["interior", _safe room.room_name]) (roomPrompt job room)
      room.camera_angles)).flatten

/-! ### Concrete fixtures used by witnesses and counterexamples -/

/-- A client built with the defaults: no custom endpoint, 120s timeout. -/
def c0 : GeminiClient := GeminiClient.init "k" none default_timeout_s

/-- A job with one exterior angle named `Front 45` and no rooms. -/
def jobOneExterior : RenderJob :=
  { project_name := "P"
    style_consistency_notes := ""
    exterior := { plan_files := []
                  finishes := { notes := "" }
                  camera_angles := [{ name := "Front 45", description := "" }] }
    interior := { rooms := [] }
    model_name := "m" }

/-- A job with one exterior angle whose name contains a space. -/
def jobSpacedAngle : RenderJob :=
  { project_name := "P"
    style_consistency_notes := ""
    exterior := { plan_files := []
                  finishes := { notes := "" }
                  camera_angles := [{ name := "a b", description := "" }] }
    interior := { rooms := [] }
    model_name := "m" }

/-- A client stub returning exactly one image payload. -/
def gOne : String → String → List InlineFile → GeminiResponse :=
  fun _ _ _ => { images_b64 := ["IMG"], raw := .null }

/-- A client stub returning zero image payloads. -/
def gNone : String → String → List InlineFile → GeminiResponse :=
  fun _ _ _ => { images_b64 := [], raw := .null }

/-- An SDK oracle that succeeds with zero image payloads. -/
def sdkEmpty : String → String → List InlineFile → Except PyErr GeminiResponse :=
  fun _ _ _ => .ok { images_b64 := [], raw := .null }

/-- An Imagen oracle that succeeds with one payload. -/
def imagenOk : String → String → Except PyErr GeminiResponse :=
  fun _ _ => .ok { images_b64 := ["A"], raw := .null }

/-- An Imagen oracle that raises `ModuleNotFoundError`. -/
def imagenMissing : String → String → Except PyErr GeminiResponse :=
  fun _ _ => .error .moduleNotFound

/-- An HTTP oracle answering 200 with an empty body. -/
def post200 : HttpPost → HttpResp := fun _ => { status := 200, body := .null }

/-- An HTTP oracle answering 404. -/
def post404 : HttpPost → HttpResp := fun _ => { status := 404, body := .null }

/-- The object node of the C1 counterexample: its `inline_data` key holds
a truthy non-dict value while its `inlineData` key holds a valid image
payload. -/
def camelShadowedKvs : List (String × Json) :=
  [("inline_data", .str "junk"),
   ("inlineData", .obj [("mime_type", .str "image/png"), ("data", .str "xyz")])]

/-! ## Theorems -/

namespace Json

theorem inlineCheck_eq_toList (kvs : List (String × Json)) :
    inlineCheck kvs = (nodePayload (.obj kvs)).toList := by
  simp only [inlineCheck, nodePayload]
  split <;> try rfl
  split <;> try rfl
  split <;> try rfl
  split <;> rfl

mutual

theorem extract_eq_filterMap (j : Json) :
    extract_images_b64 j = (dfsNodes j).filterMap nodePayload := by
  cases j with
  | obj kvs =>
    rw [extract_images_b64, dfsNodes, List.filterMap_cons, inlineCheck_eq_toList,
      extractKvs_eq_filterMap kvs]
    cases nodePayload (.obj kvs) <;> simp
  | arr xs =>
    rw [extract_images_b64, dfsNodes, List.filterMap_cons, extractArr_eq_filterMap xs]
    simp [nodePayload]
  | null => rfl
  | bool b => rfl
  | num n => rfl
  | str s => rfl

theorem extractKvs_eq_filterMap (kvs : List (String × Json)) :
    extractKvs kvs = (dfsNodesKvs kvs).filterMap nodePayload := by
  cases kvs with
  | nil => rfl
  | cons kv rest =>
    rw [extractKvs, dfsNodesKvs, List.filterMap_append,
      extract_eq_filterMap kv.2, extractKvs_eq_filterMap rest]

theorem extractArr_eq_filterMap (xs : List Json) :
    extractArr xs = (dfsNodesArr xs).filterMap nodePayload := by
  cases xs with
  | nil => rfl
  | cons x rest =>
    rw [extractArr, dfsNodesArr, List.filterMap_append,
      extract_eq_filterMap x, extractArr_eq_filterMap rest]

end

end Json

/-- C1, counterexample: the claim reads the extraction walk as returning
the `data` field of every node carrying an inline-data key (in either
casing) with a valid image payload.  This node's `inlineData` key holds a
valid payload with data `"xyz"` — its mime type starts with `image/` and
its data is a non-empty string, so the claim's ignore clause does not
apply — yet the walk returns nothing, because the node's `inline_data`
key holds a truthy non-dict value that shadows the camelCase key. -/
theorem extract_misses_camel_shadowed_payload :
    specInlinePayload (Json.get camelShadowedKvs "inlineData") = some "xyz" ∧
    Json.extract_images_b64 (.obj camelShadowedKvs) = [] := by
  constructor <;> rfl

/-- C1 (amended): the extraction walk returns exactly the per-node
inline-data payloads of the parsed JSON value, in depth-first document
order (each object node is checked before its values are visited in
source order, and list elements are visited in order), where a node's
payload is resolved per `Json.nodePayload`: the snake_case key
`inline_data` takes precedence and `inlineData` is consulted only when it
is absent or falsy (likewise `mime_type` over `mimeType`), the resolved
mime type must be a string starting with `image/`, and the `data` field
must be a non-empty string. -/
theorem extract_images_b64_returns_dfs_payloads (j : Json) :
    Json.extract_images_b64 j = (Json.dfsNodes j).filterMap Json.nodePayload :=
  Json.extract_eq_filterMap j

/-- C10: each object node contributes at most one payload per visit (the
optional `Json.nodePayload` of the node itself, appended before the
children's contributions), with the snake_case keys taking precedence: a
node carrying both casings with distinct valid payloads yields only the
snake_case one; the camelCase key (resp. `mimeType`) is consulted exactly
when `inline_data` (resp. `mime_type`) is absent or falsy. -/
theorem extract_object_node_contributes_at_most_snake_payload :
    (∀ kvs : List (String × Json),
      Json.extract_images_b64 (.obj kvs) =
        (Json.nodePayload (.obj kvs)).toList ++ Json.extractKvs kvs) ∧
    (∀ kvs : List (String × Json), ((Json.nodePayload (.obj kvs)).toList).length ≤ 1) ∧
    Json.extract_images_b64 (.obj
      [("inline_data", .obj [("mime_type", .str "image/png"), ("data", .str "SNAKE")]),
       ("inlineData", .obj [("mimeType", .str "image/jpeg"), ("data", .str "CAMEL")])]) =
      ["SNAKE"] ∧
    Json.extract_images_b64 (.obj
      [("inline_data", .obj []),
       ("inlineData", .obj [("mimeType", .str "image/jpeg"), ("data", .str "CAMEL")])]) =
      ["CAMEL"] ∧
    Json.nodePayload (.obj [("inline_data", .obj
      [("mime_type", .str "text/plain"), ("mimeType", .str "image/png"),
       ("data", .str "D")])]) = none ∧
    Json.nodePayload (.obj [("inline_data", .obj
      [("mime_type", .str ""), ("mimeType", .str "image/png"),
       ("data", .str "D")])]) = some "D" := by
  refine ⟨fun kvs => ?_, fun kvs => ?_, by rfl, by rfl, by rfl, by rfl⟩
  · rw [Json.extract_images_b64, Json.inlineCheck_eq_toList]
  · cases Json.nodePayload (.obj kvs) <;> simp

theorem map_replaceChar_eq_replaceUnsafe (l : List Char) :
    l.map replaceChar = replaceUnsafe l := by
  induction l with
  | nil => rfl
  | cons c cs ih => simp [replaceUnsafe, replaceChar, ih]

theorem dropWhile_eq_dropLeadingUnderscores (l : List Char) :
    l.dropWhile (· == '_') = dropLeadingUnderscores l := by
  induction l with
  | nil => rfl
  | cons c cs ih =>
    rw [List.dropWhile_cons, dropLeadingUnderscores]
    by_cases h : c = '_' <;> simp [h, ih]

/-- C5: the sanitizer replaces each character that is not alphanumeric,
`-`, or `_` with `_`, strips leading and trailing underscores, and
defaults an empty result to the placeholder `room`; in particular
`_safe "Living Room #2" = "Living_Room__2"` and `_safe "" = "room"`. -/
theorem safe_matches_sanitize_spec :
    (∀ s : String, _safe s = sanitizeSpec s) ∧
    _safe "Living Room #2" = "Living_Room__2" ∧
    _safe "" = "room" := by
  refine ⟨fun s => ?_, by decide, by decide⟩
  simp only [_safe, sanitizeSpec, stripUnderscores,
    map_replaceChar_eq_replaceUnsafe, dropWhile_eq_dropLeadingUnderscores,
    List.isEmpty_iff]

theorem keepChar_replaceChar (c : Char) : keepChar (replaceChar c) = true := by
  by_cases h : keepChar c = true
  · rwa [replaceChar, if_pos h]
  · rw [replaceChar, if_neg h]
    decide

theorem keepChar_of_mem_map_replaceChar {l : List Char} {c : Char}
    (h : c ∈ l.map replaceChar) : keepChar c = true := by
  obtain ⟨a, _, rfl⟩ := List.mem_map.mp h
  exact keepChar_replaceChar a

theorem map_replaceChar_of_kept (l : List Char) (h : ∀ c ∈ l, keepChar c = true) :
    l.map replaceChar = l := by
  induction l with
  | nil => rfl
  | cons c cs ih =>
    have hc := h c (List.mem_cons_self c cs)
    simp only [List.map_cons, replaceChar, hc, if_true]
    rw [ih (fun d hd => h d (List.mem_cons_of_mem c hd))]

theorem mem_of_mem_stripUnderscores {l : List Char} {c : Char}
    (h : c ∈ stripUnderscores l) : c ∈ l := by
  unfold stripUnderscores at h
  rw [List.mem_reverse] at h
  have h1 := (List.dropWhile_sublist (l := (l.dropWhile (· == '_')).reverse)
    (p := (· == '_'))).mem h
  rw [List.mem_reverse] at h1
  exact (List.dropWhile_sublist (l := l) (p := (· == '_'))).mem h1

theorem head?_dropWhile_false {p : Char → Bool} {l : List Char} {a : Char}
    (h : (l.dropWhile p).head? = some a) : p a = false := by
  induction l with
  | nil => simp at h
  | cons c cs ih =>
    rw [List.dropWhile_cons] at h
    by_cases hc : p c = true
    · exact ih (by rwa [if_pos hc] at h)
    · rw [if_neg hc, List.head?_cons] at h
      obtain rfl := Option.some.inj h
      cases hpa : p c
      · rfl
      · exact absurd hpa hc

theorem getLast?_of_getLast?_dropWhile {p : Char → Bool} {l : List Char} {a : Char}
    (h : (l.dropWhile p).getLast? = some a) : l.getLast? = some a := by
  induction l with
  | nil => simp at h
  | cons c cs ih =>
    rw [List.dropWhile_cons] at h
    by_cases hc : p c = true
    · rw [if_pos hc] at h
      have h2 := ih h
      cases cs with
      | nil => simp at h2
      | cons d ds => rw [List.getLast?_cons_cons]; exact h2
    · rwa [if_neg hc] at h

theorem dropWhile_eq_self_of_head? {p : Char → Bool} {l : List Char}
    (h : ∀ a, l.head? = some a → p a = false) : l.dropWhile p = l := by
  cases l with
  | nil => rfl
  | cons c cs =>
    rw [List.dropWhile_cons, h c rfl]
    simp

theorem head?_stripUnderscores_ne {l : List Char} {a : Char}
    (h : (stripUnderscores l).head? = some a) : (a == '_') = false := by
  unfold stripUnderscores at h
  rw [List.head?_reverse] at h
  have h1 := getLast?_of_getLast?_dropWhile (p := (· == '_')) h
  rw [List.getLast?_reverse] at h1
  exact head?_dropWhile_false (p := (· == '_')) h1

theorem getLast?_stripUnderscores_ne {l : List Char} {a : Char}
    (h : (stripUnderscores l).getLast? = some a) : (a == '_') = false := by
  unfold stripUnderscores at h
  rw [List.getLast?_reverse] at h
  exact head?_dropWhile_false (p := (· == '_')) h

theorem stripUnderscores_eq_self {l : List Char}
    (hh : ∀ a, l.head? = some a → (a == '_') = false)
    (hl : ∀ a, l.getLast? = some a → (a == '_') = false) :
    stripUnderscores l = l := by
  unfold stripUnderscores
  rw [dropWhile_eq_self_of_head? hh]
  rw [dropWhile_eq_self_of_head? (fun a ha => hl a (by rwa [List.head?_reverse] at ha))]
  exact List.reverse_reverse l

theorem data_mk (l : List Char) : (String.mk l).data = l := rfl

/-- C6: the sanitizer is idempotent: `_safe (_safe s) = _safe s`. -/
theorem safe_idempotent (s : String) : _safe (_safe s) = _safe s := by
  by_cases hE : (stripUnderscores (s.data.map replaceChar)).isEmpty = true
  · have h1 : _safe s = "room" := by simp [_safe, hE]
    rw [h1]
    decide
  · have h1 : _safe s = String.mk (stripUnderscores (s.data.map replaceChar)) := by
      simp [_safe, hE]
    rw [h1]
    have hkept : ∀ c ∈ stripUnderscores (s.data.map replaceChar), keepChar c = true :=
      fun c hc => keepChar_of_mem_map_replaceChar (mem_of_mem_stripUnderscores hc)
    have hmap := map_replaceChar_of_kept _ hkept
    have hstrip : stripUnderscores (stripUnderscores (s.data.map replaceChar)) =
        stripUnderscores (s.data.map replaceChar) :=
      stripUnderscores_eq_self
        (fun a ha => head?_stripUnderscores_ne ha)
        (fun a ha => getLast?_stripUnderscores_ne ha)
    simp [_safe, data_mk, hmap, hstrip, hE]

/-- C7: the path classifier is total — every path maps to one of `pdf`,
`image`, `other` and no error is possible — with `.pdf` mapping to `pdf`
and the four image extensions to `image`, case-insensitively. -/
theorem kind_from_path_total_and_correct :
    (∀ p : String,
      kind_from_path p = "pdf" ∨ kind_from_path p = "image" ∨ kind_from_path p = "other") ∧
    kind_from_path "a.pdf" = "pdf" ∧
    kind_from_path "a.PNG" = "image" ∧
    kind_from_path "a.txt" = "other" ∧
    kind_from_path "dir/photo.JpEg" = "image" ∧
    kind_from_path "b.webp" = "image" ∧
    kind_from_path "archive.tar.gz" = "other" ∧
    kind_from_path "noext" = "other" := by
  refine ⟨fun p => ?_, by decide, by decide, by decide, by decide, by decide, by decide,
    by decide⟩
  simp only [kind_from_path]
  split
  · exact Or.inl rfl
  split
  · exact Or.inr (Or.inl rfl)
  · exact Or.inr (Or.inr rfl)

theorem write_images_fst (images : List String) (dir : List String) (stem : String) :
    (_write_images images dir stem).1 = specAngleImagePaths dir stem images.length := by
  simp only [_write_images, specAngleImagePaths, List.map_map]
  rw [show (Prod.fst ∘ fun (e : Nat × String) =>
      (dir ++ [_safe stem ++ "_" ++ toString (e.1 + 1) ++ ".png"], e.2)) =
      (fun i => dir ++ [_safe stem ++ "_" ++ toString (i + 1) ++ ".png"]) ∘ Prod.fst from rfl]
  rw [← List.map_map, List.enum_map_fst]

theorem imageWritePaths_append (a b : List FsWrite) :
    imageWritePaths (a ++ b) = imageWritePaths a ++ imageWritePaths b := by
  simp [imageWritePaths]

theorem debugWritePaths_append (a b : List FsWrite) :
    debugWritePaths (a ++ b) = debugWritePaths a ++ debugWritePaths b := by
  simp [debugWritePaths]

theorem imageWritePaths_map_imageFile (entries : List (List String × String)) :
    imageWritePaths (entries.map (fun pb => FsWrite.imageFile pb.1 pb.2)) =
      entries.map Prod.fst := by
  induction entries with
  | nil => rfl
  | cons e rest ih =>
    show e.1 :: imageWritePaths (rest.map (fun pb => FsWrite.imageFile pb.1 pb.2)) =
      e.1 :: rest.map Prod.fst
    exact congrArg (fun l => e.1 :: l) ih

theorem debugWritePaths_map_imageFile (entries : List (List String × String)) :
    debugWritePaths (entries.map (fun pb => FsWrite.imageFile pb.1 pb.2)) = [] := by
  induction entries with
  | nil => rfl
  | cons e rest ih =>
    show debugWritePaths (rest.map (fun pb => FsWrite.imageFile pb.1 pb.2)) = []
    exact ih

theorem write_images_log_images (images : List String) (dir : List String) (stem : String) :
    imageWritePaths (_write_images images dir stem).2 = (_write_images images dir stem).1 := by
  simp only [_write_images]
  exact imageWritePaths_map_imageFile _

theorem write_images_log_debugs (images : List String) (dir : List String) (stem : String) :
    debugWritePaths (_write_images images dir stem).2 = [] := by
  simp only [_write_images]
  exact debugWritePaths_map_imageFile _

theorem renderAngles_fst (g : String → String → List InlineFile → GeminiResponse)
    (model : String) (files : List InlineFile) (dir : List String)
    (promptOf : CameraAngle → String) (angles : List CameraAngle) :
    (renderAngles g model files dir promptOf angles).1 =
      specScopeImages g model files dir promptOf angles := by
  induction angles with
  | nil => rfl
  | cons a rest ih =>
    simp only [renderAngles, specScopeImages, List.map_cons, List.flatten_cons]
    rw [write_images_fst, ih]
    rfl

theorem renderAngles_images (g : String → String → List InlineFile → GeminiResponse)
    (model : String) (files : List InlineFile) (dir : List String)
    (promptOf : CameraAngle → String) (angles : List CameraAngle) :
    imageWritePaths (renderAngles g model files dir promptOf angles).2 =
      (renderAngles g model files dir promptOf angles).1 := by
  induction angles with
  | nil => rfl
  | cons a rest ih =>
    simp only [renderAngles]
    rw [imageWritePaths_append, imageWritePaths_append, write_images_log_images, ih]
    have hdbg : imageWritePaths (if (g model (promptOf a) files).images_b64.isEmpty then
        [_write_debug (g model (promptOf a) files).raw dir (a.name ++ "_debug.json")]
      else []) = [] := by
      split <;> rfl
    rw [hdbg, List.nil_append]

theorem renderAngles_debugs (g : String → String → List InlineFile → GeminiResponse)
    (model : String) (files : List InlineFile) (dir : List String)
    (promptOf : CameraAngle → String) (angles : List CameraAngle) :
    debugWritePaths (renderAngles g model files dir promptOf angles).2 =
      specScopeDebugs g model files dir promptOf angles := by
  induction angles with
  | nil => rfl
  | cons a rest ih =>
    simp only [renderAngles]
    rw [debugWritePaths_append, debugWritePaths_append, write_images_log_debugs, ih]
    have hdbg : debugWritePaths (if (g model (promptOf a) files).images_b64.isEmpty then
        [_write_debug (g model (promptOf a) files).raw dir (a.name ++ "_debug.json")]
      else []) = (if (g model (promptOf a) files).images_b64.isEmpty then
        [dir ++ [a.name ++ "_debug.json"]] else []) := by
      split <;> rfl
    rw [hdbg]
    simp [specScopeDebugs]

theorem renderRooms_fst (g : String → String → List InlineFile → GeminiResponse)
    (guessM toB : String → String) (out : List String) (job : RenderJob)
    (rooms : List RoomInputs) :
    (renderRooms g guessM toB out job rooms).1 =
      (rooms.map (fun room => specScopeImages g job.model_name
        (_inline_files guessM toB (room.plan_or_reference_files.map FileInput.path))
        (out ++ ["interior", _safe room.room_name]) (roomPrompt job room)
        room.camera_angles)).flatten := by
  induction rooms with
  | nil => rfl
  | cons room rest ih =>
    simp only [renderRooms, List.map_cons, List.flatten_cons]
    rw [renderAngles_fst, ih]

theorem renderRooms_images (g : String → String → List InlineFile → GeminiResponse)
    (guessM toB : String → String) (out : List String) (job : RenderJob)
    (rooms : List RoomInputs) :
    imageWritePaths (renderRooms g guessM toB out job rooms).2 =
      (renderRooms g guessM toB out job rooms).1 := by
  induction rooms with
  | nil => rfl
  | cons room rest ih =>
    simp only [renderRooms]
    rw [imageWritePaths_append, renderAngles_images, ih]

theorem renderRooms_debugs (g : String → String → List InlineFile → GeminiResponse)
    (guessM toB : String → String) (out : List String) (job : RenderJob)
    (rooms : List RoomInputs) :
    debugWritePaths (renderRooms g guessM toB out job rooms).2 =
      (rooms.map (fun room => specScopeDebugs g job.model_name
        (_inline_files guessM toB (room.plan_or_reference_files.map FileInput.path))
        (out ++ ["interior", _safe room.room_name]) (roomPrompt job room)
        room.camera_angles)).flatten := by
  induction rooms with
  | nil => rfl
  | cons room rest ih =>
    simp only [renderRooms]
    rw [debugWritePaths_append, renderAngles_debugs, ih]
    simp

/-- C4: the orchestrator's returned written-file list is exactly the list
of image files it wrote, in iteration order — exterior angles in
declaration order then each room's angles in declaration order, each
named `<sanitized_angle_name>_<index>.png` with a 1-based index per angle
— and contains no debug files; in particular, for a job with one exterior
angle `Front 45` and no rooms and a client returning one payload, exactly
the single file `exterior/Front_45_1.png` is written and returned. -/
theorem render_all_written_files_exact :
    (∀ (g : String → String → List InlineFile → GeminiResponse)
      (guessM toB : String → String) (out : List String) (job : RenderJob),
      (render_all g guessM toB out job).1.written_files =
        specImageFiles g guessM toB out job) ∧
    (∀ (g : String → String → List InlineFile → GeminiResponse)
      (guessM toB : String → String) (out : List String) (job : RenderJob),
      (render_all g guessM toB out job).1.written_files =
        imageWritePaths (render_all g guessM toB out job).2) ∧
    (render_all gOne id id ["out"] jobOneExterior).1.written_files =
      [["out", "exterior", "Front_45_1.png"]] ∧
    imageWritePaths (render_all gOne id id ["out"] jobOneExterior).2 =
      [["out", "exterior", "Front_45_1.png"]] ∧
    debugWritePaths (render_all gOne id id ["out"] jobOneExterior).2 = [] := by
  refine ⟨fun g guessM toB out job => ?_, fun g guessM toB out job => ?_,
    by decide, by decide, by decide⟩
  · simp only [render_all, specImageFiles]
    rw [renderAngles_fst, renderRooms_fst]
  · simp only [render_all]
    rw [imageWritePaths_append, renderAngles_images, renderRooms_images]

/-- C2, counterexample: for an angle named `a b` whose response carries no
images, the orchestrator writes the debug dump at
`exterior/a b_debug.json` — the raw angle name — and not at
`exterior/a_b_debug.json`, although the sanitizer maps `a b` to `a_b`;
the claim's sanitized filename is never produced. -/
theorem debug_filename_not_sanitized :
    debugWritePaths (render_all gNone id id ["out"] jobSpacedAngle).2 =
      [["out", "exterior", "a b_debug.json"]] ∧
    _safe "a b" = "a_b" ∧
    (["out", "exterior", "a_b_debug.json"] ∈
      debugWritePaths (render_all gNone id id ["out"] jobSpacedAngle).2) = False := by
  refine ⟨by decide, by decide, by simp; decide⟩

/-- C2 (amended): for every angle of every scope whose response carries
zero image payloads, the orchestrator writes the raw diagnostic response
to `<scope_path>/<angle_name>_debug.json`, where the filename uses the
angle name verbatim (unsanitized), and writes no debug file for angles
with payloads; the full debug-file list, in order, is
`specDebugFiles`. -/
theorem render_all_debug_files_exact
    (g : String → String → List InlineFile → GeminiResponse)
    (guessM toB : String → String) (out : List String) (job : RenderJob) :
    debugWritePaths (render_all g guessM toB out job).2 =
      specDebugFiles g guessM toB out job := by
  simp only [render_all, specDebugFiles]
  rw [debugWritePaths_append, renderAngles_debugs, renderRooms_debugs]

/-- C3, counterexample: when the primary path succeeds with zero payloads
and a fallback model is configured, the claim says exactly one second
attempt is made against the fallback model and that result is returned;
but when the fallback attempt itself raises `ModuleNotFoundError` (the
`except` block encloses it too), its outcome is not returned — a third,
REST attempt is made and its result returned instead. -/
theorem imagen_module_missing_falls_to_rest :
    generate_image sdkEmpty imagenMissing post200 c0 "m" "p" [] (some "f") =
      (Except.ok { images_b64 := [], raw := Json.null },
       [Attempt.sdk "m" "p" [], Attempt.imagen "f" "p", Attempt.rest "m" "p" []]) ∧
    imagenMissing "f" "p" = .error PyErr.moduleNotFound := by
  constructor <;> rfl

/-- C3 (amended): (i) if the primary SDK path raises module-not-found, the
call falls back to the REST transport instead of failing; (ii) if the
primary path succeeds and returns at least one image payload, or no
non-empty fallback model is configured (the fallback argument is absent
or the empty string, both falsy to `not fallback_imagen_model`), its
result is returned unchanged; (iii) if
the primary path succeeds with zero payloads and a non-empty fallback
model is configured, exactly one second attempt is made against the
fallback model with prompt-only input (no attachments) and its result is
returned — unless that attempt itself raises module-not-found, in which
case (iv) the REST transport is used and its result returned. -/
theorem generate_image_dispatch :
    (∀ (sdkO : String → String → List InlineFile → Except PyErr GeminiResponse)
      (imagenO : String → String → Except PyErr GeminiResponse)
      (post : HttpPost → HttpResp) (c : GeminiClient) (model prompt : String)
      (files : List InlineFile) (fb : Option String),
      sdkO model prompt files = .error .moduleNotFound →
      generate_image sdkO imagenO post c model prompt files fb =
        (generate_image_rest post c model prompt files,
         [.sdk model prompt files, .rest model prompt files])) ∧
    (∀ (sdkO : String → String → List InlineFile → Except PyErr GeminiResponse)
      (imagenO : String → String → Except PyErr GeminiResponse)
      (post : HttpPost → HttpResp) (c : GeminiClient) (model prompt : String)
      (files : List InlineFile) (fb : Option String) (r : GeminiResponse),
      sdkO model prompt files = .ok r →
      (r.images_b64 ≠ [] ∨ fb = none ∨ fb = some "") →
      (generate_image sdkO imagenO post c model prompt files fb).1 = .ok r) ∧
    (∀ (sdkO : String → String → List InlineFile → Except PyErr GeminiResponse)
      (imagenO : String → String → Except PyErr GeminiResponse)
      (post : HttpPost → HttpResp) (c : GeminiClient) (model prompt : String)
      (files : List InlineFile) (fm : String) (r : GeminiResponse),
      sdkO model prompt files = .ok r →
      r.images_b64 = [] →
      fm ≠ "" →
      imagenO fm prompt ≠ .error .moduleNotFound →
      generate_image sdkO imagenO post c model prompt files (some fm) =
        (imagenO fm prompt, [.sdk model prompt files, .imagen fm prompt])) ∧
    (∀ (sdkO : String → String → List InlineFile → Except PyErr GeminiResponse)
      (imagenO : String → String → Except PyErr GeminiResponse)
      (post : HttpPost → HttpResp) (c : GeminiClient) (model prompt : String)
      (files : List InlineFile) (fm : String) (r : GeminiResponse),
      sdkO model prompt files = .ok r →
      r.images_b64 = [] →
      fm ≠ "" →
      imagenO fm prompt = .error .moduleNotFound →
      generate_image sdkO imagenO post c model prompt files (some fm) =
        (generate_image_rest post c model prompt files,
         [.sdk model prompt files, .imagen fm prompt, .rest model prompt files])) := by
  have hdata : ∀ fm : String, fm ≠ "" → fm.data.isEmpty = false := by
    intro fm h
    cases fm with
    | mk l =>
      cases l with
      | nil => exact absurd rfl h
      | cons c cs => rfl
  refine ⟨fun sdkO imagenO post c model prompt files fb h => ?_,
    fun sdkO imagenO post c model prompt files fb r h h2 => ?_,
    fun sdkO imagenO post c model prompt files fm r h h2 h3 h4 => ?_,
    fun sdkO imagenO post c model prompt files fm r h h2 h3 h4 => ?_⟩
  · simp [generate_image, h]
  · rcases h2 with h2 | rfl | rfl
    · have hE : r.images_b64.isEmpty = false := by
        cases hl : r.images_b64 with
        | nil => exact absurd hl h2
        | cons a l => rfl
      simp [generate_image, h, hE]
    · simp [generate_image, h, optStrTruthy]
    · simp [generate_image, h, optStrTruthy]
  · cases hi : imagenO fm prompt with
    | error e =>
      cases e with
      | moduleNotFound => exact absurd hi h4
      | runtimeError m => simp [generate_image, h, h2, hdata fm h3, optStrTruthy, hi]
      | httpError st => simp [generate_image, h, h2, hdata fm h3, optStrTruthy, hi]
      | otherError m => simp [generate_image, h, h2, hdata fm h3, optStrTruthy, hi]
    | ok resp => simp [generate_image, h, h2, hdata fm h3, optStrTruthy, hi]
  · simp [generate_image, h, h2, hdata fm h3, optStrTruthy, h4]

/-- Witness for the dispatch theorem: with an SDK oracle succeeding with
zero payloads, a working Imagen oracle and the fallback model `f`, the
call returns the Imagen result after exactly the SDK and Imagen
attempts. -/
theorem generate_image_dispatch_witness :
    generate_image sdkEmpty imagenOk post200 c0 "m" "p" [] (some "f") =
      (Except.ok { images_b64 := ["A"], raw := Json.null },
       [Attempt.sdk "m" "p" [], Attempt.imagen "f" "p"]) := by
  have h := generate_image_dispatch.2.2.1 sdkEmpty imagenOk post200 c0 "m" "p" []
    "f" { images_b64 := [], raw := Json.null } rfl rfl (by decide)
    (fun hcon => nomatch hcon)
  exact h

/-- C8: whenever the REST transport receives an HTTP 404 response it
raises the dedicated `RuntimeError` whose message contains the
model-selection remediation hint (testable by substring decomposition),
while every other 4xx/5xx status raises the generic HTTP error instead. -/
theorem rest_404_remediation :
    (∀ (post : HttpPost → HttpResp) (c : GeminiClient) (model prompt : String)
      (files : List InlineFile),
      (post (rest_post_request c model prompt files)).status = 404 →
      generate_image_rest post c model prompt files =
        .error (.runtimeError msg404)) ∧
    (∃ a b : String, msg404 = a ++ modelRemediationHint ++ b) ∧
    (∀ (post : HttpPost → HttpResp) (c : GeminiClient) (model prompt : String)
      (files : List InlineFile),
      (post (rest_post_request c model prompt files)).status ≠ 404 →
      400 ≤ (post (rest_post_request c model prompt files)).status →
      (post (rest_post_request c model prompt files)).status < 600 →
      generate_image_rest post c model prompt files =
        .error (.httpError (post (rest_post_request c model prompt files)).status)) := by
  refine ⟨fun post c model prompt files h => ?_,
    ⟨"Gemini returned 404 (model not found or endpoint not supported). ",
     " Try the app button \x27List available models\x27 or call: " ++
     "https://generativelanguage.googleapis.com/v1beta/models?key=YOUR_KEY", by rfl⟩,
    fun post c model prompt files h1 h2 h3 => ?_⟩
  · simp [generate_image_rest, h]
  · simp [generate_image_rest, h1, h2, h3]

/-- Witness for the 404 theorem at a concrete oracle answering 404. -/
theorem rest_404_remediation_witness :
    generate_image_rest post404 c0 "m" "p" [] = .error (.runtimeError msg404) :=
  rest_404_remediation.1 post404 c0 "m" "p" [] rfl

/-- C9, counterexample: the SDK transport paths of `generate_image` pass
no timeout at all — their call records carry none — even though the
client is configured with the default 120-unit budget, so not every call
the client issues is bounded by the configured timeout. -/
theorem sdk_call_has_no_timeout :
    (sdk_generate_content_call "gemini-2.5-flash-image-preview").timeout = none ∧
    (imagen_generate_images_call default_fallback_imagen_model).timeout = none ∧
    (GeminiClient.init "k" none default_timeout_s).timeout_s = 120 :=
  ⟨rfl, rfl, rfl⟩

/-- C9 (amended): the model-listing request and the REST transport request
carry the configured timeout (whose default is 120), while the two SDK
call sites pass no timeout. -/
theorem rest_calls_bounded_by_timeout (c : GeminiClient) (model prompt : String)
    (files : List InlineFile) :
    (list_models_request c).timeout = c.timeout_s ∧
    (rest_post_request c model prompt files).timeout = c.timeout_s ∧
    (sdk_generate_content_call model).timeout = none ∧
    (imagen_generate_images_call model).timeout = none ∧
    default_timeout_s = 120 :=
  ⟨rfl, rfl, rfl, rfl, rfl⟩

end Archviz
